import Mathlib

/-!
A shallow embedding of `odemis.acq.path` (`OpticalPathManager`): the data
model of optical-path modes, the mode tables `SPARC_MODES` / `SPARC2_MODES`,
manager construction (table filtering), `setPath`, `guessMode` and
`findNonMirror`, together with theorems about their behaviour.

Python dictionaries are embedded as association lists (`List (key × value)`),
whose order models the iteration order of the underlying dict.  Python values
that can sit in an axis-target position are embedded as `Val`: strings,
rationals (for the numeric positions), `Val.rad d` for the irrational constant
`math.radians(d)` (kept symbolic; equal only to itself, as no two distinct
such constants are compared in the code), and `Val.notMirror` for the unique
sentinel object `GRATING_NOT_MIRROR` (equal only to itself, like the Python
`object()` instance).  Exceptions are embedded as explicit error values;
asynchronous move futures as a list of issued moves plus an oracle
`fails : Nat → Bool` saying which issued future raises `IOError` when awaited.
-/

namespace Odemis

/-- A Python value that can appear as an axis target, choice key/value or
position: a string, a rational number, `math.radians d` (symbolic), or the
`GRATING_NOT_MIRROR` sentinel object. -/
inductive Val where
  | str : String → Val
  | num : ℚ → Val
  | rad : ℚ → Val
  | notMirror : Val
deriving DecidableEq

/-- One axis of an actuator: `choices` is `some table` when the axis has a
discrete `choices` dict (symbolic key → physical value), `none` otherwise. -/
structure AxisDef where
  choices : Option (List (Val × Val))
deriving DecidableEq

/-- An actuator component: its axes and its current position snapshot. -/
structure Comp where
  axes : List (String × AxisDef)
  position : List (String × Val)
deriving DecidableEq

/-- The component registry: `model.getComponent(role=r)`, `none` meaning the
lookup raises `LookupError`. -/
def Registry : Type := String → Option Comp

/-- Per-mode configuration: actuator role → (axis name → target value). -/
abbrev ModeConf := List (String × List (String × Val))

/-- One mode-table entry: mode name, detector role needed, configuration. -/
structure ModeEntry where
  name : String
  det : String
  conf : ModeConf
deriving DecidableEq

/-- First-match association-list lookup, the embedding of Python `d[k]` /
`d.get(k)` on dicts. -/
def lookupA {α β : Type} [DecidableEq α] : List (α × β) → α → Option β
  | [], _ => none
  | (k, v) :: rest, a => if k = a then some v else lookupA rest a

/-- Association-list update, the embedding of Python `d[k] = v`: replaces the
value at an existing key in place, otherwise appends the binding. -/
def updA {α β : Type} [DecidableEq α] : List (α × β) → α → β → List (α × β)
  | [], a, b => [(a, b)]
  | (k, v) :: rest, a, b => if k = a then (a, b) :: rest else (k, v) :: updA rest a b

/-- `SPARC_MODES` of `path.py`, in source order. -/
def SPARC_MODES : List ModeEntry :=
  [ ⟨"ar", "ccd",
      [ ("lens-switch", [("rx", Val.rad 90)]),
        ("ar-spec-selector", [("rx", Val.num 0)]),
        ("ar-det-selector", [("rx", Val.num 0)]) ]⟩,
    ⟨"cli", "cl-detector",
      [ ("lens-switch", [("rx", Val.rad 90)]),
        ("ar-spec-selector", [("rx", Val.num 0)]),
        ("ar-det-selector", [("rx", Val.rad 90)]) ]⟩,
    ⟨"spectral", "spectrometer",
      [ ("lens-switch", [("rx", Val.rad 90)]),
        ("ar-spec-selector", [("rx", Val.rad 90)]),
        ("spec-det-selector", [("rx", Val.num 0)]) ]⟩,
    ⟨"monochromator", "monochromator",
      [ ("lens-switch", [("rx", Val.rad 90)]),
        ("ar-spec-selector", [("rx", Val.rad 90)]),
        ("spec-det-selector", [("rx", Val.rad 90)]) ]⟩,
    ⟨"mirror-align", "ccd",
      [ ("lens-switch", [("rx", Val.num 0)]),
        ("filter", [("band", Val.str "pass-through")]),
        ("ar-spec-selector", [("rx", Val.num 0)]),
        ("ar-det-selector", [("rx", Val.num 0)]) ]⟩,
    ⟨"chamber-view", "ccd",
      [ ("lens-switch", [("rx", Val.rad 90)]),
        ("filter", [("band", Val.str "pass-through")]),
        ("ar-spec-selector", [("rx", Val.num 0)]),
        ("ar-det-selector", [("rx", Val.num 0)]) ]⟩,
    ⟨"fiber-align", "spectrometer",
      [ ("lens-switch", [("rx", Val.rad 90)]),
        ("filter", [("band", Val.str "pass-through")]),
        ("ar-spec-selector", [("rx", Val.rad 90)]),
        ("spec-det-selector", [("rx", Val.num 0)]),
        ("spectrograph", [("slit-in", Val.num (1/2000))]) ]⟩ ]

/-- `SPARC2_MODES` of `path.py`, in source order.  `500e-6 = 1/2000`,
`10e-6 = 1/100000`. -/
def SPARC2_MODES : List ModeEntry :=
  [ ⟨"ar", "ccd",
      [ ("lens-switch", [("x", Val.str "on")]),
        ("slit-in-big", [("x", Val.str "on")]),
        ("spectrograph", [("grating", Val.str "mirror")]),
        ("cl-det-selector", [("x", Val.str "off")]),
        ("spec-det-selector", [("rx", Val.num 0)]) ]⟩,
    ⟨"spectral-integrated", "spectrometer",
      [ ("lens-switch", [("x", Val.str "off")]),
        ("slit-in-big", [("x", Val.str "off")]),
        ("cl-det-selector", [("x", Val.str "off")]),
        ("spec-det-selector", [("rx", Val.num 0)]),
        ("spectrograph", [("grating", Val.notMirror)]) ]⟩,
    ⟨"spectral-dedicated", "spectrometer",
      [ ("lens-switch", [("x", Val.str "off")]),
        ("slit-in-big", [("x", Val.str "off")]),
        ("cl-det-selector", [("x", Val.str "off")]),
        ("spec-det-selector", [("rx", Val.rad 90)]),
        ("spectrograph", [("grating", Val.notMirror)]) ]⟩,
    ⟨"mirror-align", "ccd",
      [ ("lens-switch", [("x", Val.str "off")]),
        ("slit-in-big", [("x", Val.str "on")]),
        ("spectrograph", [("grating", Val.str "mirror")]),
        ("cl-det-selector", [("x", Val.str "off")]),
        ("spec-det-selector", [("rx", Val.num 0)]) ]⟩,
    ⟨"chamber-view", "ccd",
      [ ("lens-switch", [("x", Val.str "on")]),
        ("slit-in-big", [("x", Val.str "on")]),
        ("spectrograph", [("grating", Val.str "mirror")]),
        ("cl-det-selector", [("x", Val.str "off")]),
        ("spec-det-selector", [("rx", Val.num 0)]) ]⟩,
    ⟨"spec-focus", "ccd",
      [ ("lens-switch", [("x", Val.str "off")]),
        ("slit-in-big", [("x", Val.str "off")]),
        ("spectrograph", [("slit-in", Val.num (1/100000)), ("grating", Val.str "mirror")]),
        ("cl-det-selector", [("x", Val.str "off")]),
        ("spec-det-selector", [("rx", Val.num 0)]) ]⟩ ]

/-- `ALIGN_MODES` of `path.py` (a set in the source; only membership is used). -/
def ALIGN_MODES : List String :=
  ["mirror-align", "chamber-view", "fiber-align", "spec-focus"]

/-- `x in ALIGN_MODES` where `x` is `self._last_mode`, i.e. possibly `None`
(and `None` is a member of no set of strings). -/
def optMemB (o : Option String) (l : List String) : Bool :=
  match o with
  | some s => decide (s ∈ l)
  | none => false

/-- Mode-table lookup by mode name (`self._modes[mode]` / the `in` test). -/
def lookupM : List ModeEntry → String → Option ModeEntry
  | [], _ => none
  | e :: rest, m => if e.name = m then some e else lookupM rest m

/-- The mutable fields of an `OpticalPathManager` instance. -/
structure OpticalPathManager where
  guessed : List ModeEntry
  modes : List ModeEntry
  known : List (String × Comp)
  stored : List (String × Val)
  lastMode : Option String
deriving DecidableEq

/-- `self._getComponent(role)`: consult the `_known_comps` cache, on a miss
query the registry and cache the result.  `none` models the propagated
`LookupError`; on failure the cache is unchanged. -/
def getComponentC (reg : Registry) (known : List (String × Comp)) (role : String) :
    Option (Comp × List (String × Comp)) :=
  match lookupA known role with
  | some c => some (c, known)
  | none =>
    match reg role with
    | some c => some (c, updA known role c)
    | none => none

/-- `del d[k]` for the mode tables (keys are unique in the static tables). -/
def removeKey (l : List ModeEntry) (k : String) : List ModeEntry :=
  l.filter (fun e => e.name ≠ k)

/-- The `__init__` loop `for m in ALIGN_MODES: del self.guessed[m]`
(`try`/`except` makes a missing key a no-op, which `removeKey` already is). -/
def removeAlign (l : List ModeEntry) : List ModeEntry :=
  ALIGN_MODES.foldl removeKey l

/-- The `__init__` loop removing modes whose detector is not available:
`for m, (det, conf) in self._modes.items(): try: self._getComponent(det)
except LookupError: del self._modes[m]`.  Threads the component cache,
which the loop populates via `_getComponent`. -/
def pruneModes (reg : Registry) :
    List ModeEntry → List (String × Comp) → List ModeEntry × List (String × Comp)
  | [], known => ([], known)
  | e :: rest, known =>
    match getComponentC reg known e.det with
    | some (_, known1) =>
      let r := pruneModes reg rest known1
      (e :: r.1, r.2)
    | none => pruneModes reg rest known

/-- Selection of the base table from the microscope role. -/
def baseModes (mRole : String) : List ModeEntry :=
  if mRole = "sparc2" then SPARC2_MODES else SPARC_MODES

/-- `OpticalPathManager.__init__`: pick the base table from the microscope
role, build the guess table by removing the alignment modes, prune `_modes`
by detector availability (caching the resolved components), then for a
"sparc2" microscope keep exactly one of the two spectral variants in the
guess table depending on whether an "sp-ccd" component is present
(`allRoles` lists the roles of `model.getComponents()`). -/
def mkManager (reg : Registry) (mRole : String) (allRoles : List String) :
    OpticalPathManager :=
  let base := baseModes mRole
  let guessed0 := removeAlign base
  let pruned := pruneModes reg base []
  let guessed :=
    if mRole = "sparc2" then
      if "sp-ccd" ∈ allRoles then removeKey guessed0 "spectral-integrated"
      else removeKey guessed0 "spectral-dedicated"
    else guessed0
  ⟨guessed, pruned.1, pruned.2, [], none⟩

/-- Errors that can be raised from inside the per-axis resolution of
`setPath`: `findNonMirror`'s `ValueError` ("Cannot find grating value in
given choices"), a dict `KeyError`, or an `AttributeError` from reading
`.choices` on an axis that has none. -/
inductive InnerErr where
  | noNonMirror
  | keyError
  | attrError
deriving DecidableEq

/-- Exceptions propagated out of `setPath`: the `ValueError` for an unknown
mode, or an error raised inside the axis-resolution loop. -/
inductive PErr where
  | invalidMode : String → PErr
  | inner : InnerErr → PErr
deriving DecidableEq

/-- `OpticalPathManager.findNonMirror(choices)`: the first key whose value
differs from `"mirror"`; raises (`noNonMirror`) when the loop finishes. -/
def findNonMirror : List (Val × Val) → Except InnerErr Val
  | [] => .error .noNonMirror
  | (k, v) :: rest => if v ≠ Val.str "mirror" then .ok k else findNonMirror rest

/-- Outcome of resolving one `(axis, pos)` entry of a mode configuration:
a move of `axis` (possibly renamed to `wavelength`) to a value together with
the updated `_stored`, a silent skip of the axis, or a raised error. -/
inductive AxisRes where
  | move : String → Val → List (String × Val) → AxisRes
  | skip : List (String × Val) → AxisRes
  | err : InnerErr → AxisRes
deriving DecidableEq

/-- The body of the `for axis, pos in conf.items()` loop of `setPath`,
for one axis: the `band` / `grating` / `slit-in` / generic-choices cases,
including the `_stored` snapshots and the mirror / `GRATING_NOT_MIRROR`
resolution. -/
def processAxis (last : Option String) (stored : List (String × Val)) (comp : Comp)
    (axis : String) (pos : Val) : AxisRes :=
  match lookupA comp.axes axis with
  | none => .skip stored
  | some ax =>
    if axis = "band" then
      match ax.choices with
      | none => .err .attrError
      | some choices =>
        match choices.find? (fun kv => kv.2 = pos) with
        | some kv =>
          if optMemB last ALIGN_MODES then .move axis kv.1 stored
          else
            match lookupA comp.position axis with
            | some cur => .move axis kv.1 (updA stored axis cur)
            | none => .err .keyError
        | none => .skip stored
    else if axis = "grating" then
      match ax.choices with
      | none => .err .attrError
      | some choices =>
        match choices.find? (fun kv => kv.2 = pos) with
        | some kv =>
          match lookupA comp.position axis with
          | none => .err .keyError
          | some cur =>
            match lookupA choices cur with
            | none => .err .keyError
            | some curv =>
              if curv ≠ Val.str "mirror" then .move axis kv.1 (updA stored axis cur)
              else .move axis kv.1 stored
        | none =>
          if pos = Val.str "mirror" then .move "wavelength" (Val.num 0) stored
          else
            match lookupA stored axis with
            | some p => .move axis p stored
            | none =>
              match findNonMirror choices with
              | .ok k => .move axis k stored
              | .error e => .err e
    else if axis = "slit-in" then
      if optMemB last ALIGN_MODES then .move axis pos stored
      else
        match lookupA comp.position axis with
        | some cur => .move axis pos (updA stored axis cur)
        | none => .err .keyError
    else
      match ax.choices with
      | some choices =>
        .move axis (choices.foldl (fun p kv => if kv.2 = p then kv.1 else p) pos) stored
      | none => .move axis pos stored

/-- One asynchronous `comp.moveAbs(mv)` call, recorded as the role the
component was resolved from and the axis→value mapping moved. -/
structure Move where
  role : String
  mv : List (String × Val)
deriving DecidableEq

/-- The `for axis, pos in conf.items()` loop over one component's
configuration: accumulates the `mv` dict and the `_stored` updates; an error
aborts the loop (the exception propagates), keeping mutations made so far. -/
def runAxes (last : Option String) (comp : Comp) :
    List (String × Val) → List (String × Val) → List (String × Val) →
    List (String × Val) × List (String × Val) × Option InnerErr
  | [], mv, stored => (mv, stored, none)
  | (axis, pos) :: rest, mv, stored =>
    match processAxis last stored comp axis pos with
    | .move a p stored1 => runAxes last comp rest (updA mv a p) stored1
    | .skip stored1 => runAxes last comp rest mv stored1
    | .err e => (mv, stored, some e)

/-- Result of the main `for comp_role, conf in modeconf.items()` loop:
the cache, the `_stored` dict, the moves issued so far (in issue order) and
the error that aborted the loop, if any. -/
structure LoopOut where
  known : List (String × Comp)
  stored : List (String × Val)
  moves : List Move
  err : Option InnerErr
deriving DecidableEq

/-- The main loop of `setPath`: resolve each component (a failed resolution
is logged and skipped), resolve its axes, and issue one `moveAbs` per
successfully resolved component — even when its `mv` dict is empty. -/
def runComps (reg : Registry) (last : Option String) :
    ModeConf → List (String × Comp) → List (String × Val) → List Move → LoopOut
  | [], known, stored, moves => ⟨known, stored, moves, none⟩
  | (role, conf) :: rest, known, stored, moves =>
    match getComponentC reg known role with
    | none => runComps reg last rest known stored moves
    | some (comp, known1) =>
      match runAxes last comp conf [] stored with
      | (_, stored1, some e) => ⟨known1, stored1, moves, some e⟩
      | (mv, stored1, none) => runComps reg last rest known1 stored1 (moves ++ [⟨role, mv⟩])

/-- Output of the restore-on-alignment-exit block: updated cache, restoring
moves issued, and log messages for unresolvable actuators. -/
structure RestoreOut where
  known : List (String × Comp)
  moves : List Move
  logs : List String
deriving DecidableEq

/-- One `if axis in self._stored: try: ... moveAbs ... except LookupError:
log` block of the restore-on-alignment-exit code: restore `axis` through the
component of role `role` if a snapshot exists; an unresolvable component is
logged (with the source's message `msg`) and skipped. -/
def restoreAxis (reg : Registry) (known : List (String × Comp))
    (stored : List (String × Val)) (axis role msg : String) : RestoreOut :=
  match lookupA stored axis with
  | some v =>
    match getComponentC reg known role with
    | some (_, k1) => ⟨k1, [⟨role, [(axis, v)]⟩], []⟩
    | none => ⟨known, [], [msg]⟩
  | none => ⟨known, [], []⟩

/-- The `if self._last_mode in ALIGN_MODES and mode not in ALIGN_MODES:`
block of `setPath`: restore `band` via the `"filter"` component, then
`slit-in` via the `"spectrograph"` component (threading the component
cache). -/
def restoreBlock (reg : Registry) (known : List (String × Comp))
    (stored : List (String × Val)) (last : Option String) (mode : String) : RestoreOut :=
  if optMemB last ALIGN_MODES && !(decide (mode ∈ ALIGN_MODES)) then
    let b := restoreAxis reg known stored "band" "filter" "No filter component available"
    let s := restoreAxis reg b.known stored "slit-in" "spectrograph"
      "No spectrograph component available"
    ⟨s.known, b.moves ++ s.moves, b.logs ++ s.logs⟩
  else ⟨known, [], []⟩

/-- The final `for f in fmoves: try: f.result() except IOError: log` loop:
await each issued future in order; `fails i` says whether the `i`-th issued
future raises `IOError`.  Returns the moves whose futures failed and were
logged, in issue order; no failure aborts the loop. -/
def waitAll (fails : Nat → Bool) : List Move → Nat → List Move
  | [], _ => []
  | m :: rest, i =>
    if fails i then m :: waitAll fails rest (i + 1) else waitAll fails rest (i + 1)

/-- Complete outcome of one `setPath` call: the exception propagated (if
any), the manager state after the call (mutations made before a raise are
kept, as on the Python object), the moves issued in order, and the moves
whose awaited futures failed with `IOError` (the error log). -/
structure SPOut where
  err : Option PErr
  state : OpticalPathManager
  moves : List Move
  waitLog : List Move
deriving DecidableEq

/-- `OpticalPathManager.setPath(mode)`.  `fails` is the oracle telling which
issued move futures raise `IOError` when awaited. -/
def setPath (reg : Registry) (fails : Nat → Bool) (st : OpticalPathManager)
    (mode : String) : SPOut :=
  match lookupM st.modes mode with
  | none => ⟨some (.invalidMode mode), st, [], []⟩
  | some dc =>
    match runComps reg st.lastMode dc.conf st.known st.stored [] with
    | ⟨known1, stored1, moves1, some e⟩ =>
      ⟨some (.inner e), { st with known := known1, stored := stored1 }, moves1, []⟩
    | ⟨known1, stored1, moves1, none⟩ =>
      let r := restoreBlock reg known1 stored1 st.lastMode mode
      let allMoves := moves1 ++ r.moves
      ⟨none,
       { st with known := r.known, stored := stored1, lastMode := some mode },
       allMoves, waitAll fails allMoves 0⟩

/-- Input to `guessMode`: a single-detector stream exposing its detector's
role, a `MultipleDetectorStream` exposing its sub-streams' detector roles in
order, or an object that is not a `Stream` at all. -/
inductive GuessInput where
  | single : String → GuessInput
  | multi : List String → GuessInput
  | nonStream : GuessInput
deriving DecidableEq

/-- Errors raised by `guessMode`: `IOError` ("Given object is not a stream")
or `LookupError` ("No mode can be inferred for the given stream"). -/
inductive GErr where
  | notAStream
  | noModeInferred
deriving DecidableEq

/-- The `for mode, conf in self.guessed.items(): if conf[0] == role: return
mode` scan. -/
def scanGuess : List ModeEntry → String → Option String
  | [], _ => none
  | e :: rest, r => if e.det = r then some e.name else scanGuess rest r

/-- The outer loop over a `MultipleDetectorStream`'s sub-streams, scanning
the guess table for each in turn. -/
def scanMulti (table : List ModeEntry) : List String → Option String
  | [] => none
  | r :: rest =>
    match scanGuess table r with
    | some m => some m
    | none => scanMulti table rest

/-- `OpticalPathManager.guessMode(guess_stream)`. -/
def guessMode (st : OpticalPathManager) : GuessInput → Except GErr String
  | .nonStream => .error .notAStream
  | .multi subs =>
    match scanMulti st.guessed subs with
    | some m => .ok m
    | none => .error .noModeInferred
  | .single r =>
    match scanGuess st.guessed r with
    | some m => .ok m
    | none => .error .noModeInferred

/-! ### Derived predicates -/

/-- Invariant of `_known_comps`: every cache entry is the registry's answer
for its role. -/
def cacheOK (reg : Registry) (known : List (String × Comp)) : Prop :=
  ∀ r c, lookupA known r = some c → reg r = some c

/-- `_stored` holds at most one value per axis name. -/
def keysNodup (l : List (String × Val)) : Prop := (l.map Prod.fst).Nodup

/-! ### Concrete instances used as examples and witnesses -/

/-- A registry with no components at all. -/
def regNone : Registry := fun _ => none

/-- A manager with a single trivial mode, for exercising `setPath` entry. -/
def stTiny : OpticalPathManager := ⟨[], [⟨"ar", "ccd", []⟩], [], [], none⟩

/-- A guess table matching the spec's `guessMode` example. -/
def stGuessDemo : OpticalPathManager :=
  ⟨[⟨"ar", "ccd", []⟩, ⟨"spectral", "spectrometer", []⟩], [], [], [], none⟩

/-- A spectrograph whose grating choices are the spec's example
`{"g1": "600gmm", "g2": "mirror"}`, currently on `g1`. -/
def spgDemo : Comp :=
  ⟨[("grating", ⟨some [(Val.str "g1", Val.str "600gmm"), (Val.str "g2", Val.str "mirror")]⟩)],
   [("grating", Val.str "g1")]⟩

/-- A registry exposing only `spgDemo` as "spectrograph". -/
def regSpgDemo : Registry := fun r => if r = "spectrograph" then some spgDemo else none

/-- A manager whose only mode targets the grating with the
`GRATING_NOT_MIRROR` sentinel. -/
def stSpectralDemo : OpticalPathManager :=
  ⟨[], [⟨"spectral", "spectrometer", [("spectrograph", [("grating", Val.notMirror)])]⟩],
   [], [], none⟩

/-- A spectrograph whose grating choices contain no `"mirror"` entry. -/
def spgDemo2 : Comp :=
  ⟨[("grating", ⟨some [(Val.str "g1", Val.str "600gmm")]⟩)], [("grating", Val.str "g1")]⟩

/-- A registry exposing only `spgDemo2` as "spectrograph". -/
def regSpgDemo2 : Registry := fun r => if r = "spectrograph" then some spgDemo2 else none

/-- A manager whose only mode targets the grating at the literal "mirror". -/
def stMirrorDemo : OpticalPathManager :=
  ⟨[], [⟨"ar", "ccd", [("spectrograph", [("grating", Val.str "mirror")])]⟩], [], [], none⟩

/-- A minimal filter wheel. -/
def filterDemo : Comp :=
  ⟨[("band", ⟨some [(Val.num 1, Val.str "pass-through")]⟩)], [("band", Val.num 1)]⟩

/-- A registry exposing only `filterDemo` as "filter". -/
def filterOnly : Registry := fun r => if r = "filter" then some filterDemo else none

/-- A manager leaving "mirror-align" with `band` and `slit-in` snapshots in
the restore-store. -/
def stAlignExit : OpticalPathManager :=
  ⟨[], [⟨"ar", "ccd", []⟩], [], [("band", Val.num 2), ("slit-in", Val.num 1)],
   some "mirror-align"⟩

/-- A spectrograph with two non-mirror gratings, currently on `g0`. -/
def spgDemo3 : Comp :=
  ⟨[("grating", ⟨some [(Val.str "g0", Val.str "300gmm"), (Val.str "g1", Val.str "600gmm")]⟩)],
   [("grating", Val.str "g0")]⟩

/-- A registry exposing only `spgDemo3` as "spectrograph". -/
def regSpgDemo3 : Registry := fun r => if r = "spectrograph" then some spgDemo3 else none

/-- Previous mode "ar" (not an alignment mode), a stored grating `g1`, and a
sentinel grating target: `setPath` reads the restore-store here. -/
def stStoredRead : OpticalPathManager :=
  ⟨[], [⟨"spectral", "spectrometer", [("spectrograph", [("grating", Val.notMirror)])]⟩],
   [], [("grating", Val.str "g1")], some "ar"⟩

/-- Same manager with an empty restore-store. -/
def stStoredEmpty : OpticalPathManager :=
  ⟨[], [⟨"spectral", "spectrometer", [("spectrograph", [("grating", Val.notMirror)])]⟩],
   [], [], some "ar"⟩

/-- Leaving "mirror-align" towards a mode whose only actuator role is not
available, with a `band` snapshot stored. -/
def stMissingActs : OpticalPathManager :=
  ⟨[], [⟨"ar", "ccd", [("lens-switch", [("x", Val.str "on")])]⟩], [],
   [("band", Val.num 2)], some "mirror-align"⟩

/-! ### Helper lemmas about the association-list embedding -/

theorem lookupA_updA {α β : Type} [DecidableEq α] (l : List (α × β)) (a : α) (b : β) (x : α) :
    lookupA (updA l a b) x = if a = x then some b else lookupA l x := by
  induction l with
  | nil => simp [updA, lookupA]
  | cons hd tl ih =>
    obtain ⟨k, v⟩ := hd
    by_cases hk : k = a
    · subst hk
      by_cases hx : k = x <;> simp [updA, lookupA, hx]
    · by_cases hx : k = x
      · subst hx
        have hax : ¬ a = k := fun h => hk h.symm
        simp [updA, lookupA, hk, hax]
      · simp [updA, lookupA, hk, hx, ih]

theorem keys_updA {α β : Type} [DecidableEq α] (l : List (α × β)) (a : α) (b : β) :
    (updA l a b).map Prod.fst =
      if (lookupA l a).isSome then l.map Prod.fst else l.map Prod.fst ++ [a] := by
  induction l with
  | nil => simp [updA, lookupA]
  | cons hd tl ih =>
    obtain ⟨k, v⟩ := hd
    by_cases hk : k = a
    · subst hk; simp [updA, lookupA]
    · rcases hl : lookupA tl a with _ | c <;> simp [updA, lookupA, hk, hl, ih]

theorem lookupA_isSome_of_mem {α β : Type} [DecidableEq α] {l : List (α × β)} {k : α} {v : β}
    (h : (k, v) ∈ l) : lookupA l k ≠ none := by
  induction l with
  | nil => simp at h
  | cons hd tl ih =>
    rcases List.mem_cons.mp h with h1 | h1
    · rw [← h1]; simp [lookupA]
    · by_cases he : hd.1 = k
      · simp [lookupA, he]
      · simpa [lookupA, he] using ih h1

/-- `updA` preserves key distinctness. -/
theorem nodup_keys_updA {α β : Type} [DecidableEq α] (l : List (α × β)) (a : α) (b : β)
    (h : (l.map Prod.fst).Nodup) : ((updA l a b).map Prod.fst).Nodup := by
  rw [keys_updA]
  rcases hl : lookupA l a with _ | c
  · simp only [Option.isSome_none, Bool.false_eq_true, if_false]
    rw [List.nodup_append]
    refine ⟨h, List.nodup_singleton a, ?_⟩
    intro x hx hxa
    have hxa1 : x = a := by simpa using hxa
    subst hxa1
    obtain ⟨⟨k, v1⟩, hkv, hfst⟩ := List.mem_map.mp hx
    have hfst1 : k = x := hfst
    subst hfst1
    exact lookupA_isSome_of_mem hkv hl
  · simpa using h

/-! ### The component cache: every cached component came from the registry -/

theorem cacheOK_nil (reg : Registry) : cacheOK reg [] := by
  intro r c h; simp [lookupA] at h

theorem cacheOK_updA {reg : Registry} {known : List (String × Comp)} {a : String} {c : Comp}
    (hOK : cacheOK reg known) (hreg : reg a = some c) : cacheOK reg (updA known a c) := by
  intro r x h
  rw [lookupA_updA] at h
  by_cases hr : a = r
  · subst hr
    simp at h
    subst h
    exact hreg
  · rw [if_neg hr] at h
    exact hOK r x h

/-- Under the cache invariant, `_getComponent` succeeds exactly when the
registry has the role, returns the registry's component, and preserves the
invariant. -/
theorem getComponentC_spec (reg : Registry) (known : List (String × Comp)) (role : String)
    (hOK : cacheOK reg known) :
    (∀ c known1, getComponentC reg known role = some (c, known1) →
        reg role = some c ∧ cacheOK reg known1) ∧
    (getComponentC reg known role = none → reg role = none) := by
  unfold getComponentC
  rcases hl : lookupA known role with _ | c0
  · rcases hr : reg role with _ | c1
    · simp [hr]
    · refine ⟨?_, by simp⟩
      intro c known1 h
      simp at h
      obtain ⟨h1, h2⟩ := h
      subst h1
      subst h2
      exact ⟨rfl, cacheOK_updA hOK hr⟩
  · have hr := hOK role c0 hl
    refine ⟨?_, by simp⟩
    intro c known1 h
    simp at h
    obtain ⟨h1, h2⟩ := h
    subst h1
    subst h2
    exact ⟨hr, hOK⟩

/-- Under the cache invariant, the `__init__` pruning loop keeps exactly the
modes whose detector role the registry can resolve. -/
theorem pruneModes_eq_filter (reg : Registry) (l : List ModeEntry)
    (known : List (String × Comp)) (hOK : cacheOK reg known) :
    (pruneModes reg l known).1 = l.filter (fun e => (reg e.det).isSome) := by
  induction l generalizing known with
  | nil => simp [pruneModes]
  | cons e rest ih =>
    rcases hg : getComponentC reg known e.det with _ | ⟨c, known1⟩
    · have hr : reg e.det = none := (getComponentC_spec reg known e.det hOK).2 hg
      simp [pruneModes, hg, hr, ih known hOK]
    · obtain ⟨hr, hOK1⟩ := (getComponentC_spec reg known e.det hOK).1 c known1 hg
      simp [pruneModes, hg, hr, ih known1 hOK1]

/-! ### The guess table -/

theorem mem_removeKey {l : List ModeEntry} {k : String} {e : ModeEntry}
    (h : e ∈ removeKey l k) : e ∈ l ∧ e.name ≠ k := by
  unfold removeKey at h
  have := List.mem_filter.mp h
  simpa using this

theorem mem_removeAlign {l : List ModeEntry} {e : ModeEntry} (h : e ∈ removeAlign l) :
    e ∈ l ∧ e.name ∉ ALIGN_MODES := by
  have main : ∀ (al : List String) (l0 : List ModeEntry),
      e ∈ al.foldl removeKey l0 → e ∈ l0 ∧ e.name ∉ al := by
    intro al
    induction al with
    | nil => intro l0 h0; simpa using h0
    | cons a rest ih =>
      intro l0 h0
      rw [List.foldl_cons] at h0
      obtain ⟨h1, h2⟩ := ih (removeKey l0 a) h0
      obtain ⟨h3, h4⟩ := mem_removeKey h1
      exact ⟨h3, by simp [h4, h2]⟩
  exact main ALIGN_MODES l h

/-- Any entry of the guess table of a freshly constructed manager comes from
the base table and is not an alignment mode. -/
theorem mem_guessed_mkManager {reg : Registry} {mRole : String} {allRoles : List String}
    {e : ModeEntry} (h : e ∈ (mkManager reg mRole allRoles).guessed) :
    e ∈ baseModes mRole ∧ e.name ∉ ALIGN_MODES := by
  unfold mkManager at h
  simp only at h
  by_cases hs : mRole = "sparc2"
  · rw [if_pos hs] at h
    by_cases hc : "sp-ccd" ∈ allRoles
    · rw [if_pos hc] at h
      exact mem_removeAlign (mem_removeKey h).1
    · rw [if_neg hc] at h
      exact mem_removeAlign (mem_removeKey h).1
  · rw [if_neg hs] at h
    exact mem_removeAlign h

theorem scanGuess_mem {t : List ModeEntry} {r m : String} (h : scanGuess t r = some m) :
    ∃ e ∈ t, e.name = m ∧ e.det = r := by
  induction t with
  | nil => simp [scanGuess] at h
  | cons e rest ih =>
    by_cases hd : e.det = r
    · simp [scanGuess, hd] at h
      exact ⟨e, List.mem_cons_self e rest, h, hd⟩
    · simp [scanGuess, hd] at h
      obtain ⟨e1, he1, hn, hdet⟩ := ih h
      exact ⟨e1, List.mem_cons_of_mem e he1, hn, hdet⟩

theorem scanMulti_mem {t : List ModeEntry} {rs : List String} {m : String}
    (h : scanMulti t rs = some m) : ∃ e ∈ t, e.name = m := by
  induction rs with
  | nil => simp [scanMulti] at h
  | cons r rest ih =>
    unfold scanMulti at h
    rcases hs : scanGuess t r with _ | m1
    · rw [hs] at h; exact ih h
    · rw [hs] at h
      simp at h
      subst h
      obtain ⟨e, he, hn, _⟩ := scanGuess_mem hs
      exact ⟨e, he, hn⟩

/-- `scanGuess` is the first-match scan of the guess table. -/
theorem scanGuess_eq_find (t : List ModeEntry) (r : String) :
    scanGuess t r = (t.find? (fun e => e.det = r)).map ModeEntry.name := by
  induction t with
  | nil => simp [scanGuess]
  | cons e rest ih =>
    by_cases hd : e.det = r
    · simp [scanGuess, List.find?_cons, hd]
    · simp [scanGuess, List.find?_cons, hd, ih]

/-! ### The await loop -/

/-- `waitAll` examines every issued future, in issue order, and logs exactly
the failing ones. -/
theorem waitAll_eq_filter (fails : Nat → Bool) (ms : List Move) (i : Nat) :
    waitAll fails ms i = ((ms.enumFrom i).filter (fun p => fails p.1)).map Prod.snd := by
  induction ms generalizing i with
  | nil => simp [waitAll]
  | cons m rest ih =>
    rw [List.enumFrom_cons]
    by_cases hf : fails i <;> simp [waitAll, hf, ih]

/-! ### Discipline of the `_stored` restore-store -/

theorem lookupA_updA_ne_none {α β : Type} [DecidableEq α] {l : List (α × β)} {a x : α} {b : β}
    (h : lookupA l x ≠ none) : lookupA (updA l a b) x ≠ none := by
  rw [lookupA_updA]
  by_cases hax : a = x <;> simp [hax, h]

/-- Each per-axis step either leaves `_stored` untouched or overwrites the
processed axis with some current-position value. -/
theorem processAxis_stored (last : Option String) (stored : List (String × Val)) (comp : Comp)
    (axis : String) (pos : Val) :
    (∀ s, processAxis last stored comp axis pos = .skip s → s = stored) ∧
    (∀ a p s, processAxis last stored comp axis pos = .move a p s →
        s = stored ∨ ∃ cur, s = updA stored axis cur) := by
  unfold processAxis
  repeat' split
  all_goals refine ⟨fun s h => ?_, fun a p s h => ?_⟩
  all_goals simp at h
  all_goals first
    | exact h.symm
    | exact h
    | (obtain ⟨h1, h2, h3⟩ := h
       first
        | exact Or.inl h3.symm
        | exact Or.inl h3
        | exact Or.inr ⟨_, h3.symm⟩)

/-- The per-component axis loop preserves the restore-store discipline:
key distinctness is preserved and no key is ever removed. -/
theorem runAxes_stored (last : Option String) (comp : Comp) :
    ∀ (conf mv stored : List (String × Val)),
      (keysNodup stored → keysNodup (runAxes last comp conf mv stored).2.1) ∧
      (∀ a, lookupA stored a ≠ none → lookupA (runAxes last comp conf mv stored).2.1 a ≠ none) := by
  intro conf
  induction conf with
  | nil => intro mv stored; exact ⟨fun h => h, fun a h => h⟩
  | cons ap rest ih =>
    intro mv stored
    obtain ⟨axis, pos⟩ := ap
    rcases hp : processAxis last stored comp axis pos with ⟨a, p, s⟩ | ⟨s⟩ | ⟨e⟩
    · have hs := (processAxis_stored last stored comp axis pos).2 a p s hp
      have hnd : keysNodup stored → keysNodup s := by
        rcases hs with h1 | ⟨cur, h1⟩
        · intro h; rw [h1]; exact h
        · intro h; rw [h1]; exact nodup_keys_updA _ _ _ h
      have hmono : ∀ x, lookupA stored x ≠ none → lookupA s x ≠ none := by
        rcases hs with h1 | ⟨cur, h1⟩
        · intro x h; rw [h1]; exact h
        · intro x h; rw [h1]; exact lookupA_updA_ne_none h
      constructor
      · intro h
        simp only [runAxes, hp]
        exact (ih (updA mv a p) s).1 (hnd h)
      · intro x h
        simp only [runAxes, hp]
        exact (ih (updA mv a p) s).2 x (hmono x h)
    · have hs := (processAxis_stored last stored comp axis pos).1 s hp
      subst hs
      constructor
      · intro h
        simp only [runAxes, hp]
        exact (ih mv s).1 h
      · intro x h
        simp only [runAxes, hp]
        exact (ih mv s).2 x h
    · constructor
      · intro h
        simp only [runAxes, hp]
        exact h
      · intro x h
        simp only [runAxes, hp]
        exact h

/-- The main component loop preserves the restore-store discipline. -/
theorem runComps_stored (reg : Registry) (last : Option String) :
    ∀ (mc : ModeConf) (known : List (String × Comp)) (stored : List (String × Val))
      (moves : List Move),
      (keysNodup stored → keysNodup (runComps reg last mc known stored moves).stored) ∧
      (∀ a, lookupA stored a ≠ none →
        lookupA (runComps reg last mc known stored moves).stored a ≠ none) := by
  intro mc
  induction mc with
  | nil => intro known stored moves; exact ⟨fun h => h, fun a h => h⟩
  | cons rc rest ih =>
    intro known stored moves
    obtain ⟨role, conf⟩ := rc
    rcases hg : getComponentC reg known role with _ | ⟨comp, known1⟩
    · constructor
      · intro h
        simp only [runComps, hg]
        exact (ih known stored moves).1 h
      · intro a h
        simp only [runComps, hg]
        exact (ih known stored moves).2 a h
    · rcases hra : runAxes last comp conf [] stored with ⟨mv, stored1, e⟩
      have h1 : stored1 = (runAxes last comp conf [] stored).2.1 := by rw [hra]
      have hnd : keysNodup stored → keysNodup stored1 := by
        intro h; rw [h1]; exact (runAxes_stored last comp conf [] stored).1 h
      have hmono : ∀ a, lookupA stored a ≠ none → lookupA stored1 a ≠ none := by
        intro a h; rw [h1]; exact (runAxes_stored last comp conf [] stored).2 a h
      rcases e with _ | e1
      · constructor
        · intro h
          simp only [runComps, hg, hra]
          exact (ih known1 stored1 (moves ++ [⟨role, mv⟩])).1 (hnd h)
        · intro a h
          simp only [runComps, hg, hra]
          exact (ih known1 stored1 (moves ++ [⟨role, mv⟩])).2 a (hmono a h)
      · constructor
        · intro h
          simp only [runComps, hg, hra]
          exact hnd h
        · intro a h
          simp only [runComps, hg, hra]
          exact hmono a h

/-- If no component role of the configuration resolves (neither cached nor
known to the registry), the main loop does nothing at all. -/
theorem runComps_all_missing (reg : Registry) (last : Option String) :
    ∀ (mc : ModeConf) (known : List (String × Comp)) (stored : List (String × Val))
      (moves : List Move),
      (∀ e ∈ mc, lookupA known e.1 = none ∧ reg e.1 = none) →
      runComps reg last mc known stored moves = ⟨known, stored, moves, none⟩ := by
  intro mc
  induction mc with
  | nil => intro known stored moves _; rfl
  | cons rc rest ih =>
    intro known stored moves h
    obtain ⟨hl, hr⟩ := h rc (List.mem_cons_self rc rest)
    have hg : getComponentC reg known rc.1 = none := by
      unfold getComponentC
      rw [hl, hr]
    obtain ⟨role, conf⟩ := rc
    simp only [runComps, hg]
    exact ih known stored moves (fun e he => h e (List.mem_cons_of_mem _ he))

/-! ### Equation lemmas for `setPath` -/

/-- `setPath` on an unknown mode: the `ValueError` is raised before any
effect. -/
theorem setPath_eq_invalid (reg : Registry) (fails : Nat → Bool) (st : OpticalPathManager)
    (mode : String) (h : lookupM st.modes mode = none) :
    setPath reg fails st mode = ⟨some (.invalidMode mode), st, [], []⟩ := by
  unfold setPath
  rw [h]

/-- `setPath` when the main loop raises: the exception propagates, keeping
the cache and store mutations made so far; `_last_mode` is not updated and
nothing is awaited. -/
theorem setPath_eq_err (reg : Registry) (fails : Nat → Bool) (st : OpticalPathManager)
    (mode : String) (dc : ModeEntry) (k1 : List (String × Comp)) (s1 : List (String × Val))
    (m1 : List Move) (e : InnerErr)
    (h : lookupM st.modes mode = some dc)
    (hrc : runComps reg st.lastMode dc.conf st.known st.stored [] = ⟨k1, s1, m1, some e⟩) :
    setPath reg fails st mode =
      ⟨some (.inner e), { st with known := k1, stored := s1 }, m1, []⟩ := by
  unfold setPath
  rw [h]
  simp only [hrc]

/-- `setPath` on the normal path: restore block, `_last_mode` update and the
await loop. -/
theorem setPath_eq_ok (reg : Registry) (fails : Nat → Bool) (st : OpticalPathManager)
    (mode : String) (dc : ModeEntry) (k1 : List (String × Comp)) (s1 : List (String × Val))
    (m1 : List Move)
    (h : lookupM st.modes mode = some dc)
    (hrc : runComps reg st.lastMode dc.conf st.known st.stored [] = ⟨k1, s1, m1, none⟩) :
    setPath reg fails st mode =
      ⟨none,
       { st with known := (restoreBlock reg k1 s1 st.lastMode mode).known,
                 stored := s1, lastMode := some mode },
       m1 ++ (restoreBlock reg k1 s1 st.lastMode mode).moves,
       waitAll fails (m1 ++ (restoreBlock reg k1 s1 st.lastMode mode).moves) 0⟩ := by
  unfold setPath
  rw [h]
  simp only [hrc]

/-! ### C1: `guessMode` never returns an alignment mode -/

/-- C1: for any registry, microscope role, installed components and input
stream, `guessMode` on a freshly constructed manager never returns a mode
name in the alignment set: the guess table is built at construction by
removing every alignment-mode name, so no scan over it can yield one. -/
theorem guessMode_never_align (reg : Registry) (mRole : String) (allRoles : List String)
    (g : GuessInput) (m : String)
    (h : guessMode (mkManager reg mRole allRoles) g = .ok m) : m ∉ ALIGN_MODES := by
  cases g with
  | nonStream => simp [guessMode] at h
  | single r =>
    simp only [guessMode] at h
    rcases hs : scanGuess (mkManager reg mRole allRoles).guessed r with _ | m1
    · rw [hs] at h; simp at h
    · rw [hs] at h
      simp at h
      subst h
      obtain ⟨e, he, hn, _⟩ := scanGuess_mem hs
      exact hn ▸ (mem_guessed_mkManager he).2
  | multi rs =>
    simp only [guessMode] at h
    rcases hs : scanMulti (mkManager reg mRole allRoles).guessed rs with _ | m1
    · rw [hs] at h; simp at h
    · rw [hs] at h
      simp at h
      subst h
      obtain ⟨e, he, hn⟩ := scanMulti_mem hs
      exact hn ▸ (mem_guessed_mkManager he).2

theorem guessMode_never_align_witness :
    guessMode (mkManager regNone "sparc" []) (GuessInput.single "ccd") = .ok "ar" ∧
    "ar" ∉ ALIGN_MODES :=
  ⟨by rfl, guessMode_never_align regNone "sparc" [] (GuessInput.single "ccd") "ar" (by rfl)⟩

/-! ### C2: unknown modes fail with `InvalidMode` and nothing else does -/

/-- C2: `setPath` on a mode name missing from the working table fails with
`InvalidMode` immediately and with no effect at all (state unchanged, no
move issued, nothing awaited); on a mode name present in the working table
it never raises `InvalidMode`. -/
theorem setPath_invalidMode_spec (reg : Registry) (fails : Nat → Bool)
    (st : OpticalPathManager) (mode : String) :
    (lookupM st.modes mode = none →
      setPath reg fails st mode = ⟨some (.invalidMode mode), st, [], []⟩) ∧
    (∀ dc, lookupM st.modes mode = some dc →
      ∀ s, (setPath reg fails st mode).err ≠ some (.invalidMode s)) := by
  constructor
  · intro h
    exact setPath_eq_invalid reg fails st mode h
  · intro dc h s
    rcases hrc : runComps reg st.lastMode dc.conf st.known st.stored [] with ⟨k1, s1, m1, e1⟩
    rcases e1 with _ | e2
    · rw [setPath_eq_ok reg fails st mode dc k1 s1 m1 h hrc]
      simp
    · rw [setPath_eq_err reg fails st mode dc k1 s1 m1 e2 h hrc]
      simp

theorem setPath_invalidMode_spec_witness :
    (setPath regNone (fun _ => false) stTiny "nope" =
      ⟨some (.invalidMode "nope"), stTiny, [], []⟩) ∧
    ((setPath regNone (fun _ => false) stTiny "ar").err ≠ some (.invalidMode "ar")) :=
  ⟨(setPath_invalidMode_spec regNone (fun _ => false) stTiny "nope").1 (by rfl),
   (setPath_invalidMode_spec regNone (fun _ => false) stTiny "ar").2 ⟨"ar", "ccd", []⟩
     (by rfl) "ar"⟩

/-! ### C7: `guessMode` on a single-detector stream -/

/-- C7: on a single-detector stream, `guessMode` returns the first guess-table
mode whose declared detector role equals the stream's detector role, fails
with `NoModeInferred` exactly when no entry's detector role equals it, and
fails with `NotAStream` on a non-stream input; on the spec's example table a
"spectrometer" stream yields "spectral". -/
theorem guessMode_single_first_match (st : OpticalPathManager) (r : String) :
    (guessMode st (.single r) =
      match st.guessed.find? (fun e => e.det = r) with
      | some e => .ok e.name
      | none => .error .noModeInferred) ∧
    (guessMode st (.single r) = .error .noModeInferred ↔ ∀ e ∈ st.guessed, e.det ≠ r) ∧
    (guessMode st .nonStream = .error .notAStream) ∧
    (guessMode stGuessDemo (.single "spectrometer") = .ok "spectral") := by
  have h1 : guessMode st (.single r) =
      match st.guessed.find? (fun e => e.det = r) with
      | some e => .ok e.name
      | none => .error .noModeInferred := by
    simp only [guessMode]
    rw [scanGuess_eq_find]
    rcases hf1 : st.guessed.find? (fun e => e.det = r) with _ | e
    · rw [hf1]
      rfl
    · rw [hf1]
      rfl
  refine ⟨h1, ?_, rfl, by rfl⟩
  rw [h1]
  rcases hf : st.guessed.find? (fun e => e.det = r) with _ | e
  · rw [hf]
    constructor
    · intro _ e he
      have := List.find?_eq_none.mp hf e he
      simpa using this
    · intro _
      rfl
  · rw [hf]
    constructor
    · intro hh
      simp at hh
    · intro hall
      have h2 := List.find?_some hf
      have h3 := List.mem_of_find?_eq_some hf
      exact absurd (of_decide_eq_true h2) (hall e h3)

/-! ### C6: all issued move futures are awaited; `IOError` is not propagated -/

/-- C6: the outcome of `setPath` (exception, state, issued moves) does not
depend on which awaited futures fail with `IOError`; on a normal return the
error log lists exactly the failing futures among the issued moves, in issue
order (every future is examined); when an exception aborts `setPath` before
the wait loop, nothing is awaited. -/
theorem setPath_awaits_all_futures (reg : Registry) (st : OpticalPathManager) (mode : String) :
    (∀ f1 f2 : Nat → Bool,
      (setPath reg f1 st mode).err = (setPath reg f2 st mode).err ∧
      (setPath reg f1 st mode).state = (setPath reg f2 st mode).state ∧
      (setPath reg f1 st mode).moves = (setPath reg f2 st mode).moves) ∧
    (∀ f : Nat → Bool, (setPath reg f st mode).err = none →
      (setPath reg f st mode).waitLog =
        (((setPath reg f st mode).moves.enumFrom 0).filter (fun p => f p.1)).map Prod.snd) ∧
    (∀ f : Nat → Bool, (setPath reg f st mode).err ≠ none →
      (setPath reg f st mode).waitLog = []) := by
  rcases hl : lookupM st.modes mode with _ | dc
  · refine ⟨fun f1 f2 => ?_, fun f hf => ?_, fun f _ => ?_⟩
    · rw [setPath_eq_invalid reg f1 st mode hl, setPath_eq_invalid reg f2 st mode hl]
      exact ⟨rfl, rfl, rfl⟩
    · rw [setPath_eq_invalid reg f st mode hl] at hf
      simp at hf
    · rw [setPath_eq_invalid reg f st mode hl]
  · rcases hrc : runComps reg st.lastMode dc.conf st.known st.stored [] with ⟨k1, s1, m1, e1⟩
    rcases e1 with _ | e2
    · refine ⟨fun f1 f2 => ?_, fun f _ => ?_, fun f hf => ?_⟩
      · rw [setPath_eq_ok reg f1 st mode dc k1 s1 m1 hl hrc,
            setPath_eq_ok reg f2 st mode dc k1 s1 m1 hl hrc]
        exact ⟨rfl, rfl, rfl⟩
      · rw [setPath_eq_ok reg f st mode dc k1 s1 m1 hl hrc]
        simpa using waitAll_eq_filter f
          (m1 ++ (restoreBlock reg k1 s1 st.lastMode mode).moves) 0
      · rw [setPath_eq_ok reg f st mode dc k1 s1 m1 hl hrc] at hf
        simp at hf
    · refine ⟨fun f1 f2 => ?_, fun f hf => ?_, fun f _ => ?_⟩
      · rw [setPath_eq_err reg f1 st mode dc k1 s1 m1 e2 hl hrc,
            setPath_eq_err reg f2 st mode dc k1 s1 m1 e2 hl hrc]
        exact ⟨rfl, rfl, rfl⟩
      · rw [setPath_eq_err reg f st mode dc k1 s1 m1 e2 hl hrc] at hf
        simp at hf
      · rw [setPath_eq_err reg f st mode dc k1 s1 m1 e2 hl hrc]

/-! ### C8: which tables does construction prune? -/

/-- Counterexample to C8 as stated: on a microscope with no components at
all, mode "ar" (detector "ccd") is dropped from the working table but kept
in the guess table, although its detector lookup fails. -/
theorem guessed_keeps_unresolvable_mode :
    (lookupM (mkManager regNone "sparc" []).guessed "ar").map ModeEntry.det = some "ccd" ∧
    regNone "ccd" = none ∧
    lookupM (mkManager regNone "sparc" []).modes "ar" = none :=
  ⟨by rfl, rfl, by rfl⟩

/-- C8 as amended: after construction a mode is present in the *working*
table exactly when it is in the selected base table and its declared
detector role resolves on the registry; the *guess* table is not filtered by
detector availability (it does not depend on the registry at all). -/
theorem mkManager_tables_pruning (reg : Registry) (mRole : String) (allRoles : List String) :
    (∀ e : ModeEntry, e ∈ (mkManager reg mRole allRoles).modes ↔
        e ∈ baseModes mRole ∧ (reg e.det).isSome) ∧
    (∀ reg1 : Registry,
        (mkManager reg mRole allRoles).guessed = (mkManager reg1 mRole allRoles).guessed) := by
  constructor
  · intro e
    show e ∈ (pruneModes reg (baseModes mRole) []).1 ↔ _
    rw [pruneModes_eq_filter reg _ [] (cacheOK_nil reg)]
    simp [List.mem_filter]
  · intro reg1
    rfl

theorem mkManager_tables_pruning_witness :
    ⟨"ar", "ccd",
      [ ("lens-switch", [("x", Val.str "on")]),
        ("slit-in-big", [("x", Val.str "on")]),
        ("spectrograph", [("grating", Val.str "mirror")]),
        ("cl-det-selector", [("x", Val.str "off")]),
        ("spec-det-selector", [("rx", Val.num 0)]) ]⟩ ∉
      (mkManager regNone "sparc2" []).modes :=
  fun hmem =>
    by simpa [regNone] using ((mkManager_tables_pruning regNone "sparc2" []).1 _).mp hmem

theorem guessMode_single_first_match_witness :
    guessMode stGuessDemo (GuessInput.single "qq") = .error .noModeInferred :=
  ((guessMode_single_first_match stGuessDemo "qq").2.1).mpr (by decide)

theorem setPath_awaits_all_futures_witness :
    (setPath regNone (fun n => n == 0) stTiny "ar").waitLog =
      (((setPath regNone (fun n => n == 0) stTiny "ar").moves.enumFrom 0).filter
        (fun p => (fun n : Nat => n == 0) p.1)).map Prod.snd :=
  (setPath_awaits_all_futures regNone stTiny "ar").2.1 (fun n => n == 0) (by rfl)

/-! ### `findNonMirror` as a first-match search -/

/-- `findNonMirror` is the first-match scan of the choice table for a value
different from "mirror". -/
theorem findNonMirror_eq_find (choices : List (Val × Val)) :
    findNonMirror choices =
      match choices.find? (fun kv => kv.2 ≠ Val.str "mirror") with
      | some kv => .ok kv.1
      | none => .error .noNonMirror := by
  induction choices with
  | nil => simp [findNonMirror]
  | cons kv rest ih =>
    by_cases h : kv.2 = Val.str "mirror" <;>
      simp [findNonMirror, List.find?_cons, h, ih]

/-! ### C3: resolving the `GRATING_NOT_MIRROR` sentinel -/

/-- C3: a grating target equal to the `GRATING_NOT_MIRROR` sentinel (which
matches no choice value) resolves to the previously stored grating if one
exists, else to `findNonMirror`, which returns the first choice key whose
value is not "mirror" and fails with `NoNonMirrorGrating` when every entry is
"mirror" or the table is empty; on the spec's example
`{"g1": "600gmm", "g2": "mirror"}` with nothing stored, `setPath` issues the
move `grating := "g1"`. -/
theorem setPath_grating_not_mirror_sentinel :
    (∀ (last : Option String) (stored : List (String × Val)) (comp : Comp)
       (ax : AxisDef) (choices : List (Val × Val)),
       lookupA comp.axes "grating" = some ax → ax.choices = some choices →
       (∀ kv ∈ choices, kv.2 ≠ Val.notMirror) →
       (∀ p, lookupA stored "grating" = some p →
          processAxis last stored comp "grating" Val.notMirror = .move "grating" p stored) ∧
       (lookupA stored "grating" = none →
          processAxis last stored comp "grating" Val.notMirror =
            match findNonMirror choices with
            | .ok k => .move "grating" k stored
            | .error e => .err e)) ∧
    (∀ choices : List (Val × Val),
       findNonMirror choices =
         match choices.find? (fun kv => kv.2 ≠ Val.str "mirror") with
         | some kv => .ok kv.1
         | none => .error .noNonMirror) ∧
    ((setPath regSpgDemo (fun _ => false) stSpectralDemo "spectral").moves =
        [⟨"spectrograph", [("grating", Val.str "g1")]⟩] ∧
     (setPath regSpgDemo (fun _ => false) stSpectralDemo "spectral").err = none) := by
  refine ⟨?_, findNonMirror_eq_find, by rfl, by rfl⟩
  intro last stored comp ax choices hax hch hs
  have hfind : choices.find? (fun kv => kv.2 = Val.notMirror) = none :=
    List.find?_eq_none.mpr (fun kv hkv => by simpa using hs kv hkv)
  constructor
  · intro p hp
    simp [processAxis, hax, hch, hfind, hp]
  · intro hpn
    simp only [processAxis, hax, hch, hfind]
    simp [hpn]

theorem setPath_grating_not_mirror_sentinel_witness :
    processAxis none [("grating", Val.str "g2")] spgDemo "grating" Val.notMirror =
      .move "grating" (Val.str "g2") [("grating", Val.str "g2")] ∧
    processAxis none [] spgDemo "grating" Val.notMirror =
      .move "grating" (Val.str "g1") [] := by
  have h1 := (setPath_grating_not_mirror_sentinel).1 none [("grating", Val.str "g2")] spgDemo
    ⟨some [(Val.str "g1", Val.str "600gmm"), (Val.str "g2", Val.str "mirror")]⟩
    [(Val.str "g1", Val.str "600gmm"), (Val.str "g2", Val.str "mirror")]
    (by rfl) (by rfl) (by decide)
  have h2 := (setPath_grating_not_mirror_sentinel).1 none [] spgDemo
    ⟨some [(Val.str "g1", Val.str "600gmm"), (Val.str "g2", Val.str "mirror")]⟩
    [(Val.str "g1", Val.str "600gmm"), (Val.str "g2", Val.str "mirror")]
    (by rfl) (by rfl) (by decide)
  refine ⟨h1.1 (Val.str "g2") (by rfl), ?_⟩
  rw [h2.2 (by rfl)]
  rfl

/-! ### C4: the literal "mirror" with no mirror choice falls back to zero
order -/

/-- C4: when the grating target is the literal "mirror" and the choice table
has no entry with value "mirror", the move targets the `wavelength` axis at
value `0` instead of the grating axis; on the spec's example actuator the
issued move is exactly `wavelength := 0` with no grating entry. -/
theorem setPath_grating_mirror_zero_order :
    (∀ (last : Option String) (stored : List (String × Val)) (comp : Comp)
       (ax : AxisDef) (choices : List (Val × Val)),
       lookupA comp.axes "grating" = some ax → ax.choices = some choices →
       (∀ kv ∈ choices, kv.2 ≠ Val.str "mirror") →
       processAxis last stored comp "grating" (Val.str "mirror") =
         .move "wavelength" (Val.num 0) stored) ∧
    ((setPath regSpgDemo2 (fun _ => false) stMirrorDemo "ar").moves =
        [⟨"spectrograph", [("wavelength", Val.num 0)]⟩] ∧
     (setPath regSpgDemo2 (fun _ => false) stMirrorDemo "ar").err = none) := by
  refine ⟨?_, by rfl, by rfl⟩
  intro last stored comp ax choices hax hch hnm
  have hfind : choices.find? (fun kv => kv.2 = Val.str "mirror") = none :=
    List.find?_eq_none.mpr (fun kv hkv => by simpa using hnm kv hkv)
  simp [processAxis, hax, hch, hfind]

theorem setPath_grating_mirror_zero_order_witness :
    processAxis none [] spgDemo2 "grating" (Val.str "mirror") =
      .move "wavelength" (Val.num 0) [] :=
  (setPath_grating_mirror_zero_order).1 none [] spgDemo2
    ⟨some [(Val.str "g1", Val.str "600gmm")]⟩ [(Val.str "g1", Val.str "600gmm")]
    (by rfl) (by rfl) (by decide)

/-! ### C5: restoring `band` and `slit-in` when leaving alignment modes -/

/-- C5: in a `setPath` call that leaves the alignment set, each of `band`
(through the "filter" component) and `slit-in` (through the "spectrograph"
component) that has a snapshot in the restore-store gets an additional
restoring move with the stored value; an unresolvable component is logged
and skipped, and `setPath` still returns normally, as the end-to-end example
(with a filter but no spectrograph) shows. -/
theorem setPath_alignment_exit_restore :
    (∀ (reg : Registry) (known : List (String × Comp)) (stored : List (String × Val))
       (axis role msg : String),
       (∀ v, lookupA stored axis = some v →
         (∀ c k1, getComponentC reg known role = some (c, k1) →
            restoreAxis reg known stored axis role msg =
              ⟨k1, [⟨role, [(axis, v)]⟩], []⟩) ∧
         (getComponentC reg known role = none →
            restoreAxis reg known stored axis role msg = ⟨known, [], [msg]⟩)) ∧
       (lookupA stored axis = none →
          restoreAxis reg known stored axis role msg = ⟨known, [], []⟩)) ∧
    (∀ (reg : Registry) (known : List (String × Comp)) (stored : List (String × Val))
       (last : Option String) (mode : String),
       optMemB last ALIGN_MODES = true → mode ∉ ALIGN_MODES →
       restoreBlock reg known stored last mode =
         ⟨(restoreAxis reg
             (restoreAxis reg known stored "band" "filter"
               "No filter component available").known
             stored "slit-in" "spectrograph" "No spectrograph component available").known,
          (restoreAxis reg known stored "band" "filter"
             "No filter component available").moves ++
            (restoreAxis reg
               (restoreAxis reg known stored "band" "filter"
                 "No filter component available").known
               stored "slit-in" "spectrograph" "No spectrograph component available").moves,
          (restoreAxis reg known stored "band" "filter"
             "No filter component available").logs ++
            (restoreAxis reg
               (restoreAxis reg known stored "band" "filter"
                 "No filter component available").known
               stored "slit-in" "spectrograph" "No spectrograph component available").logs⟩) ∧
    (∀ (reg : Registry) (known : List (String × Comp)) (stored : List (String × Val))
       (last : Option String) (mode : String),
       optMemB last ALIGN_MODES = false ∨ mode ∈ ALIGN_MODES →
       restoreBlock reg known stored last mode = ⟨known, [], []⟩) ∧
    ((setPath filterOnly (fun _ => false) stAlignExit "ar").moves =
        [⟨"filter", [("band", Val.num 2)]⟩] ∧
     (setPath filterOnly (fun _ => false) stAlignExit "ar").err = none ∧
     (restoreBlock filterOnly [] stAlignExit.stored (some "mirror-align") "ar").logs =
       ["No spectrograph component available"]) := by
  refine ⟨?_, ?_, ?_, by rfl, by rfl, by rfl⟩
  · intro reg known stored axis role msg
    constructor
    · intro v hv
      constructor
      · intro c k1 hg
        simp [restoreAxis, hv, hg]
      · intro hg
        simp [restoreAxis, hv, hg]
    · intro hv
      simp [restoreAxis, hv]
  · intro reg known stored last mode h1 h2
    have hg : (optMemB last ALIGN_MODES && !(decide (mode ∈ ALIGN_MODES))) = true := by
      simp [h1, h2]
    unfold restoreBlock
    rw [if_pos hg]
  · intro reg known stored last mode h
    have hg : (optMemB last ALIGN_MODES && !(decide (mode ∈ ALIGN_MODES))) = false := by
      rcases h with h | h <;> simp [h]
    unfold restoreBlock
    rw [if_neg]
    rw [hg]
    simp

theorem setPath_alignment_exit_restore_witness :
    restoreAxis filterOnly [] stAlignExit.stored "band" "filter"
        "No filter component available" =
      ⟨[("filter", filterDemo)], [⟨"filter", [("band", Val.num 2)]⟩], []⟩ ∧
    restoreAxis filterOnly [] stAlignExit.stored "slit-in" "spectrograph"
        "No spectrograph component available" =
      ⟨[], [], ["No spectrograph component available"]⟩ :=
  ⟨(((setPath_alignment_exit_restore).1 filterOnly [] stAlignExit.stored "band" "filter"
      "No filter component available").1 (Val.num 2) (by rfl)).1 filterDemo
      [("filter", filterDemo)] (by rfl),
   (((setPath_alignment_exit_restore).1 filterOnly [] stAlignExit.stored "slit-in"
      "spectrograph" "No spectrograph component available").1 (Val.num 1) (by rfl)).2
      (by rfl)⟩

/-! ### C9: the restore-store discipline -/

/-- Counterexample to C9 as stated: with a non-alignment previous mode
("ar"), resolving a sentinel grating target reads the restore-store — two
managers differing only in `_stored` issue different moves, so `_stored` is
read outside any alignment-exit transition. -/
theorem stored_read_outside_align_exit :
    optMemB (some "ar") ALIGN_MODES = false ∧
    stStoredRead = { stStoredEmpty with stored := [("grating", Val.str "g1")] } ∧
    (setPath regSpgDemo3 (fun _ => false) stStoredRead "spectral").moves =
      [⟨"spectrograph", [("grating", Val.str "g1")]⟩] ∧
    (setPath regSpgDemo3 (fun _ => false) stStoredEmpty "spectral").moves =
      [⟨"spectrograph", [("grating", Val.str "g0")]⟩] :=
  ⟨by rfl, by rfl, by rfl, by rfl⟩

/-- C9 as amended: the restore-store holds at most one value per axis and no
`setPath` call ever removes an entry; `band` and `slit-in` snapshots are only
written when the previous mode is not an alignment mode; but the store is
read not only on alignment-exit restores: a grating target matching no
choice value and different from "mirror" (in particular the
`GRATING_NOT_MIRROR` sentinel) is resolved from the stored grating whenever
one exists, whatever the previous mode. -/
theorem stored_discipline :
    (∀ (reg : Registry) (fails : Nat → Bool) (st : OpticalPathManager) (mode : String),
       keysNodup st.stored → keysNodup (setPath reg fails st mode).state.stored) ∧
    (∀ (reg : Registry) (fails : Nat → Bool) (st : OpticalPathManager) (mode a : String),
       lookupA st.stored a ≠ none →
       lookupA (setPath reg fails st mode).state.stored a ≠ none) ∧
    (∀ (last : Option String) (stored : List (String × Val)) (comp : Comp)
       (ax : AxisDef) (choices : List (Val × Val)) (pos p : Val),
       lookupA comp.axes "grating" = some ax → ax.choices = some choices →
       choices.find? (fun kv => kv.2 = pos) = none → pos ≠ Val.str "mirror" →
       lookupA stored "grating" = some p →
       processAxis last stored comp "grating" pos = .move "grating" p stored) ∧
    (∀ (last : Option String) (stored : List (String × Val)) (comp : Comp)
       (ax : AxisDef) (choices : List (Val × Val)) (pos : Val) (kv : Val × Val),
       optMemB last ALIGN_MODES = true →
       lookupA comp.axes "band" = some ax → ax.choices = some choices →
       choices.find? (fun kv1 => kv1.2 = pos) = some kv →
       processAxis last stored comp "band" pos = .move "band" kv.1 stored) ∧
    (∀ (last : Option String) (stored : List (String × Val)) (comp : Comp)
       (ax : AxisDef) (pos : Val),
       optMemB last ALIGN_MODES = true →
       lookupA comp.axes "slit-in" = some ax →
       processAxis last stored comp "slit-in" pos = .move "slit-in" pos stored) := by
  have hcase : ∀ (reg : Registry) (fails : Nat → Bool) (st : OpticalPathManager)
      (mode : String),
      (setPath reg fails st mode).state.stored = st.stored ∨
      (setPath reg fails st mode).state.stored =
        (runComps reg st.lastMode
          ((lookupM st.modes mode).elim [] ModeEntry.conf) st.known st.stored []).stored := by
    intro reg fails st mode
    rcases hl : lookupM st.modes mode with _ | dc
    · rw [setPath_eq_invalid reg fails st mode hl]
      exact Or.inl rfl
    · rcases hrc : runComps reg st.lastMode dc.conf st.known st.stored [] with ⟨k1, s1, m1, e1⟩
      rcases e1 with _ | e2
      · rw [setPath_eq_ok reg fails st mode dc k1 s1 m1 hl hrc]
        right
        simp [hl, hrc]
      · rw [setPath_eq_err reg fails st mode dc k1 s1 m1 e2 hl hrc]
        right
        simp [hl, hrc]
  refine ⟨?_, ?_, ?_, ?_, ?_⟩
  · intro reg fails st mode h
    rcases hcase reg fails st mode with hc | hc
    · rw [hc]; exact h
    · rw [hc]
      exact (runComps_stored reg st.lastMode _ st.known st.stored []).1 h
  · intro reg fails st mode a h
    rcases hcase reg fails st mode with hc | hc
    · rw [hc]; exact h
    · rw [hc]
      exact (runComps_stored reg st.lastMode _ st.known st.stored []).2 a h
  · intro last stored comp ax choices pos p hax hch hfind hmir hp
    simp [processAxis, hax, hch, hfind, hmir, hp]
  · intro last stored comp ax choices pos kv h1 hax hch hfind
    simp [processAxis, hax, hch, hfind, h1]
  · intro last stored comp ax pos h1 hax
    simp [processAxis, hax, h1]

theorem stored_discipline_witness :
    keysNodup (setPath regSpgDemo3 (fun _ => false) stStoredRead "spectral").state.stored ∧
    processAxis (some "ar") [("grating", Val.str "g1")] spgDemo3 "grating" Val.notMirror =
      .move "grating" (Val.str "g1") [("grating", Val.str "g1")] :=
  ⟨(stored_discipline).1 regSpgDemo3 (fun _ => false) stStoredRead "spectral"
     (by unfold keysNodup; decide),
   (stored_discipline).2.2.1 (some "ar") [("grating", Val.str "g1")] spgDemo3
     ⟨some [(Val.str "g0", Val.str "300gmm"), (Val.str "g1", Val.str "600gmm")]⟩
     [(Val.str "g0", Val.str "300gmm"), (Val.str "g1", Val.str "600gmm")]
     Val.notMirror (Val.str "g1") (by rfl) (by rfl) (by rfl) (by decide) (by rfl)⟩

/-! ### C10: a mode whose actuators all fail to resolve -/

/-- Counterexample to C10 as stated: with every actuator role of the mode's
configuration unresolvable but an alignment exit pending, `setPath` still
issues the restore move, so "no move at all is issued" fails. -/
theorem setPath_missing_actuators_still_restores :
    lookupM stMissingActs.modes "ar" =
      some ⟨"ar", "ccd", [("lens-switch", [("x", Val.str "on")])]⟩ ∧
    (∀ e ∈ [("lens-switch", [("x", Val.str "on")])],
       lookupA stMissingActs.known (Prod.fst e) = none ∧ filterOnly (Prod.fst e) = none) ∧
    (setPath filterOnly (fun _ => false) stMissingActs "ar").moves =
      [⟨"filter", [("band", Val.num 2)]⟩] :=
  ⟨by rfl, by decide, by rfl⟩

/-- C10 as amended: if the requested mode is in the working table and every
actuator role in its configuration fails to resolve, `setPath` returns
normally, still sets `_last_mode` to the requested mode, and the main loop
issues no move — so when the call is not an alignment exit, no move at all
is issued (an alignment exit may still issue restore moves). -/
theorem setPath_all_actuators_missing (reg : Registry) (fails : Nat → Bool)
    (st : OpticalPathManager) (mode : String) (dc : ModeEntry)
    (hm : lookupM st.modes mode = some dc)
    (hmiss : ∀ e ∈ dc.conf, lookupA st.known e.1 = none ∧ reg e.1 = none) :
    (setPath reg fails st mode).err = none ∧
    (setPath reg fails st mode).state.lastMode = some mode ∧
    (optMemB st.lastMode ALIGN_MODES = false → (setPath reg fails st mode).moves = []) := by
  have hrc := runComps_all_missing reg st.lastMode dc.conf st.known st.stored [] hmiss
  rw [setPath_eq_ok reg fails st mode dc st.known st.stored [] hm hrc]
  refine ⟨rfl, rfl, fun hOpt => ?_⟩
  show [] ++ (restoreBlock reg st.known st.stored st.lastMode mode).moves = []
  unfold restoreBlock
  rw [hOpt]
  simp

theorem setPath_all_actuators_missing_witness :
    (setPath regNone (fun _ => false) stStoredEmpty "spectral").err = none ∧
    (setPath regNone (fun _ => false) stStoredEmpty "spectral").state.lastMode =
      some "spectral" ∧
    (setPath regNone (fun _ => false) stStoredEmpty "spectral").moves = [] := by
  have h := setPath_all_actuators_missing regNone (fun _ => false) stStoredEmpty "spectral"
    ⟨"spectral", "spectrometer", [("spectrograph", [("grating", Val.notMirror)])]⟩
    (by rfl) (by decide)
  exact ⟨h.1, h.2.1, h.2.2 (by rfl)⟩

end Odemis
